import Mathlib

/-!
Verification of the Secure-Messaging-App relay validator and client key
agreement against its specification.

The development shallowly embeds the relevant JavaScript source:

* `src/backend/models/KeyExchange.js`   — the handshake ledger record
* `src/backend/routes/messages.js`      — the POST /messages handler with the
  replay-protection counters (first revision in the file) and the
  DELETE /:messageId handler (second revision in the file)
* `src/backend/routes/keys.js`          — the initiate / respond / confirm
  validators
* `src/backend/utils/crypto.js`         — timestamp freshness
* `src/frontend/src/services` (the key-exchange service, second revision)
  — client-side derivation of the session key and the confirmation tags

Mongo lookups are passed in as already-resolved values; the RSA-PSS verifier,
HKDF, SHA-256, HMAC and base64 are external library primitives and enter as
function parameters, so a theorem quantifying over them holds for the real
primitives.  ECDH over P-256 is modelled by exponentiation in a cyclic group
given as exponentiation modulo a parameter p, which captures the
Diffie-Hellman structure the code relies on.  Machine timestamps are Int
milliseconds.
-/

namespace SecureMessaging

/-- The status enum of keyExchangeSchema (src/backend/models/KeyExchange.js
lines 24-28).  The schema admits exactly these five values. -/
inductive Status where
  | initiated
  | responded
  | confirmed
  | completed
  | failed
deriving DecidableEq, Repr

/-- The literal enum list of keyExchangeSchema.status. -/
def statusEnum : List String :=
  ["initiated", "responded", "confirmed", "completed", "failed"]

/-- The handshake ledger record (src/backend/models/KeyExchange.js).
Optional fields default to null in the schema.  completedAt is set by a
route but is absent from the schema, so it is not part of the record. -/
structure KeyExchangeRecord where
  sessionId : String
  initiatorId : String
  responderId : String
  initiatorEphemeralPublic : String
  responderEphemeralPublic : Option String
  initiatorNonce : String
  responderNonce : Option String
  initiatorSignature : String
  responderSignature : Option String
  initiatorConfirmation : Option String
  responderConfirmation : Option String
  initiatorLastSequence : Int
  responderLastSequence : Int
  status : Status
  expiresAt : Int
  createdAt : Int
deriving DecidableEq, Repr

/-- A stored message document (src/backend/models/Message.js, as created by
the POST /messages handler).  The Mongo _id is the id field. -/
structure StoredMessage where
  id : String
  fromId : String
  toId : String
  sessionId : String
  ciphertext : String
  iv : String
  messageType : String
  fileMetadata : Option String
  timestamp : Int
deriving DecidableEq, Repr

/-- A user document as far as the key routes read it
(src/backend/models/User.js via User.findById). -/
structure User where
  id : String
  username : String
  publicKey : Option String
  signingPublicKey : Option String
deriving DecidableEq, Repr

/-- JavaScript truthiness of an optional string field: absent and the empty
string are both falsy. -/
def present : Option String → Bool
  | none => false
  | some s => s ≠ ""

/-- JavaScript truthiness of an optional numeric field: absent and 0 are
both falsy. -/
def presentInt : Option Int → Bool
  | none => false
  | some v => v ≠ 0

/-- BackendCryptoUtils.validateTimestamp (src/backend/utils/crypto.js lines
57-62): the timestamp must lie within five minutes of the server clock. -/
def validateTimestamp (now ts : Int) : Bool :=
  (now - ts).natAbs ≤ 5 * 60 * 1000

/-- MAX_MESSAGE_SIZE of src/backend/routes/messages.js line 8: 256 KiB. -/
def MAX_MESSAGE_SIZE : Nat := 256 * 1024

/-- The body of a POST /messages request.  The source field named to is
rendered toId here, since to is a reserved word in Lean. -/
structure MessageRequest where
  toId : Option String
  sessionId : Option String
  ciphertext : Option String
  iv : Option String
  messageType : Option String
  fileMetadata : Option String
  sequenceNumber : Option Int
  nonce : Option String
  timestamp : Option Int
deriving DecidableEq, Repr

/-- Outcome of the POST /messages handler.  On rejection the handler sends
an HTTP status and an error code (for responses whose JSON body carries no
code field, the error text stands in for the code). -/
inductive SendOutcome where
  | accepted
  | rejected (httpStatus : Nat) (code : String)
deriving DecidableEq, Repr

/-- messageType falls back to the string text when absent or empty
(messages.js line 64: messageType with a default of text). -/
def messageTypeOrText : Option String → String
  | none => "text"
  | some s => if s = "" then "text" else s

/-- The message document the handler persists on acceptance
(messages.js lines 62-69). -/
def mkStoredMessage (now : Int) (sender : String) (req : MessageRequest)
    (newId : String) : StoredMessage :=
  { id := newId
    fromId := sender
    toId := req.toId.getD ""
    sessionId := req.sessionId.getD ""
    ciphertext := req.ciphertext.getD ""
    iv := req.iv.getD ""
    messageType := messageTypeOrText req.messageType
    fileMetadata := if req.messageType = some "file" then req.fileMetadata else none
    timestamp := now }

/-- The replay-protected POST /messages handler
(src/backend/routes/messages.js, first revision, lines 11-81).  The session
argument is the resolved KeyExchange.findOne result, newId the Mongo id of
the would-be message.  Returns the outcome, the saved session record and
the message store after the request. -/
def sendMessage (now : Int) (sender : String) (req : MessageRequest)
    (session : Option KeyExchangeRecord) (store : List StoredMessage)
    (newId : String) :
    SendOutcome × Option KeyExchangeRecord × List StoredMessage :=
  if ¬ (present req.toId ∧ present req.sessionId ∧
        present req.ciphertext ∧ present req.iv) then
    (.rejected 400 "MISSING_FIELDS", session, store)
  else if ¬ (req.sequenceNumber.isSome ∧ present req.nonce ∧
             presentInt req.timestamp) then
    (.rejected 400 "SECURITY_ERROR", session, store)
  else if ¬ validateTimestamp now (req.timestamp.getD 0) then
    (.rejected 400 "REPLAY_DETECTED", session, store)
  else
    match session with
    | none => (.rejected 404 "SESSION_NOT_FOUND", none, store)
    | some s =>
      if s.initiatorId = sender then
        if req.sequenceNumber = some (s.initiatorLastSequence + 1) then
          (.accepted,
           some { s with initiatorLastSequence := req.sequenceNumber.getD 0 },
           store ++ [mkStoredMessage now sender req newId])
        else
          (.rejected 409 "REPLAY_DETECTED", some s, store)
      else if s.responderId = sender then
        if req.sequenceNumber = some (s.responderLastSequence + 1) then
          (.accepted,
           some { s with responderLastSequence := req.sequenceNumber.getD 0 },
           store ++ [mkStoredMessage now sender req newId])
        else
          (.rejected 409 "REPLAY_DETECTED", some s, store)
      else
        (.rejected 403 "UNAUTHORIZED", some s, store)

/-- The per-direction sequence counter the handler consults for a sender,
mirroring the if chain of messages.js lines 41-49. -/
def dirCounter (s : KeyExchangeRecord) (sender : String) : Int :=
  if s.initiatorId = sender then s.initiatorLastSequence
  else s.responderLastSequence

/-- One handler call inside a trace; the store is irrelevant to the
counters, so it is dropped. -/
def runStep (now : Int) (s : KeyExchangeRecord)
    (p : String × MessageRequest) : SendOutcome × KeyExchangeRecord :=
  let r := sendMessage now p.1 p.2 (some s) [] ""
  (r.1, r.2.1.getD s)

/-- The sequence numbers of the accepted initiator-direction messages of a
trace, threading the evolving ledger record through the handler. -/
def acceptedInitSeqs (now : Int) :
    KeyExchangeRecord → List (String × MessageRequest) → List Int
  | _, [] => []
  | s, p :: rest =>
    let r := runStep now s p
    let tail := acceptedInitSeqs now r.2 rest
    if r.1 = .accepted ∧ s.initiatorId = p.1 then
      p.2.sequenceNumber.getD 0 :: tail
    else tail

/-- The run of consecutive integers start+1, start+2, ..., start+n. -/
def seqRun (start : Int) : Nat → List Int
  | 0 => []
  | n + 1 => (start + 1) :: seqRun (start + 1) n

/-- The DELETE /:messageId handler (src/backend/routes/messages.js, second
revision, lines 332-363): only the sender may delete, and deleteOne removes
the matched document by its id. -/
def deleteMessage (userId msgId : String) (store : List StoredMessage) :
    (Nat × String) × List StoredMessage :=
  match store.find? (fun m => m.id == msgId && m.fromId == userId) with
  | none => ((404, "MESSAGE_NOT_FOUND"), store)
  | some m => ((200, "MESSAGE_DELETED"), store.filter (fun x => x.id != m.id))

/-- A JSON string literal.  The values that reach the signed payloads are
ids, base64 blobs and decimal timestamps, none of which contain characters
JSON.stringify would escape. -/
def jsonStr (s : String) : String := "\"" ++ s ++ "\""

/-- JSON.stringify of an object literal: the fields in insertion order,
separated by commas, with no insignificant whitespace. -/
def jsonObject (fields : List (String × String)) : String :=
  "\x7b" ++
    String.intercalate "," (fields.map (fun kv => jsonStr kv.1 ++ ":" ++ jsonStr kv.2)) ++
  "\x7d"

/-- Lexicographic comparison of character lists by code point. -/
def strLeB : List Char → List Char → Bool
  | [], _ => true
  | _ :: _, [] => false
  | a :: as, b :: bs =>
    if a.toNat < b.toNat then true
    else if b.toNat < a.toNat then false
    else strLeB as bs

/-- Lexicographic order on strings by code point, the order in which the
specification expects object keys to be sorted. -/
def keyLe (a b : String) : Bool := strLeB a.data b.data

/-- Insert a field into a key-sorted field list. -/
def insertField (kv : String × String) :
    List (String × String) → List (String × String)
  | [] => [kv]
  | x :: xs => if keyLe kv.1 x.1 then kv :: x :: xs else x :: insertField kv xs

/-- Sort a field list by key (insertion sort). -/
def sortFields : List (String × String) → List (String × String)
  | [] => []
  | x :: xs => insertField x (sortFields xs)

/-- Modelled from the spec: the canonical JSON encoding the specification
mandates for signed payloads, with keys sorted lexicographically and no
insignificant whitespace.  Defined only to compare the implementation
encoding against the specification wording. -/
def canonicalJsonSorted (fields : List (String × String)) : String :=
  jsonObject (sortFields fields)

/-- The field list of the initiator signing payload in the order the object
literal is written, shared byte-for-byte by client and validator. -/
def initSignatureFields (responderId ephemeralPublic nonce timestamp : String) :
    List (String × String) :=
  [("responderId", responderId), ("ephemeralPublic", ephemeralPublic),
   ("nonce", nonce), ("timestamp", timestamp), ("type", "key_exchange_init")]

/-- The field list of the responder signing payload in object-literal
order. -/
def respondSignatureFields (sessionId ephemeralPublic nonce timestamp : String) :
    List (String × String) :=
  [("sessionId", sessionId), ("ephemeralPublic", ephemeralPublic),
   ("nonce", nonce), ("timestamp", timestamp), ("type", "key_exchange_response")]

/-- signatureData reconstructed by the initiate validator
(src/backend/routes/keys.js lines 52-58). -/
def serverInitSignatureData (responderId ephemeralPublic nonce timestamp : String) :
    String :=
  jsonObject [("responderId", responderId), ("ephemeralPublic", ephemeralPublic),
              ("nonce", nonce), ("timestamp", timestamp),
              ("type", "key_exchange_init")]

/-- signatureData built by the client initiateKeyExchange
(key-exchange service, second revision, line 348). -/
def clientInitSignatureData (responderId ephemeralPublic nonce timestamp : String) :
    String :=
  jsonObject [("responderId", responderId), ("ephemeralPublic", ephemeralPublic),
              ("nonce", nonce), ("timestamp", timestamp),
              ("type", "key_exchange_init")]

/-- signatureData reconstructed by the respond validator
(src/backend/routes/keys.js lines 174-180). -/
def serverRespondSignatureData (sessionId ephemeralPublic nonce timestamp : String) :
    String :=
  jsonObject [("sessionId", sessionId), ("ephemeralPublic", ephemeralPublic),
              ("nonce", nonce), ("timestamp", timestamp),
              ("type", "key_exchange_response")]

/-- signatureData built by the client respondToKeyExchange
(key-exchange service, second revision, line 380). -/
def clientRespondSignatureData (sessionId ephemeralPublic nonce timestamp : String) :
    String :=
  jsonObject [("sessionId", sessionId), ("ephemeralPublic", ephemeralPublic),
              ("nonce", nonce), ("timestamp", timestamp),
              ("type", "key_exchange_response")]

/-- BackendCryptoUtils.base64ToPEM (the 64-character line folding is not
reproduced: the PEM string is only ever handed to the opaque verifier). -/
def base64ToPEM (base64Key : String) : String :=
  "-----BEGIN PUBLIC KEY-----\n" ++ base64Key ++ "\n-----END PUBLIC KEY-----"

/-- The body of a POST /keys/exchange/initiate request.  The timestamp
field carries the numeric value the route obtains with parseInt. -/
structure InitRequest where
  responderId : Option String
  ephemeralPublic : Option String
  nonce : Option String
  timestamp : Option Int
  signature : Option String
deriving DecidableEq, Repr

/-- The record the initiate validator creates on success
(src/backend/routes/keys.js lines 78-93). -/
def mkInitRecord (now : Int) (initiatorId responderId ephemeralPublic nonce
    signature : String) : KeyExchangeRecord :=
  { sessionId := initiatorId ++ "_" ++ responderId ++ "_" ++ toString now
    initiatorId := initiatorId
    responderId := responderId
    initiatorEphemeralPublic := ephemeralPublic
    responderEphemeralPublic := none
    initiatorNonce := nonce
    responderNonce := none
    initiatorSignature := signature
    responderSignature := none
    initiatorConfirmation := none
    responderConfirmation := none
    initiatorLastSequence := 0
    responderLastSequence := 0
    status := .initiated
    expiresAt := now + 5 * 60 * 1000
    createdAt := now }

/-- The POST /keys/exchange/initiate validator
(src/backend/routes/keys.js lines 9-113).  findUser stands for
User.findById and verify for BackendCryptoUtils.verifySignature applied to
(pem, signature, data).  Returns the HTTP status with the error or success
code, and the ledger record created, if any.  A missing initiator document
makes the JavaScript throw, landing in the catch block with a 500. -/
def initiate (now : Int) (initiatorId : String)
    (findUser : String → Option User)
    (verify : String → String → String → Bool)
    (req : InitRequest) : (Nat × String) × Option KeyExchangeRecord :=
  if ¬ (present req.responderId ∧ present req.ephemeralPublic ∧
        present req.nonce ∧ presentInt req.timestamp ∧ present req.signature) then
    ((400, "MISSING_FIELDS"), none)
  else if ¬ validateTimestamp now (req.timestamp.getD 0) then
    ((400, "TIMESTAMP_EXPIRED"), none)
  else
    match findUser (req.responderId.getD "") with
    | none => ((404, "USER_NOT_FOUND"), none)
    | some responder =>
      if responder.signingPublicKey = none then
        ((400, "NO_SIGNING_KEY"), none)
      else
        match findUser initiatorId with
        | none => ((500, "INITIATION_FAILED"), none)
        | some initiator =>
          match initiator.signingPublicKey with
          | none => ((400, "NO_SIGNING_KEY"), none)
          | some signingKey =>
            let signatureData := serverInitSignatureData (req.responderId.getD "")
              (req.ephemeralPublic.getD "") (req.nonce.getD "")
              (toString (req.timestamp.getD 0))
            if ¬ verify (base64ToPEM signingKey) (req.signature.getD "") signatureData then
              ((401, "INVALID_SIGNATURE"), none)
            else
              ((201, "EXCHANGE_INITIATED"),
               some (mkInitRecord now initiatorId (req.responderId.getD "")
                 (req.ephemeralPublic.getD "") (req.nonce.getD "")
                 (req.signature.getD "")))

/-- The body of a POST /keys/exchange/respond request.  The timestamp
field carries the numeric value the route obtains with parseInt. -/
structure RespondRequest where
  sessionId : Option String
  ephemeralPublic : Option String
  nonce : Option String
  timestamp : Option Int
  signature : Option String
deriving DecidableEq, Repr

/-- The POST /keys/exchange/respond validator
(src/backend/routes/keys.js lines 116-225).  The session argument is the
resolved KeyExchange.findOne result; the second component of the result is
the stored record after the call. -/
def respond (now : Int) (responderId : String)
    (findUser : String → Option User)
    (verify : String → String → String → Bool)
    (session : Option KeyExchangeRecord)
    (req : RespondRequest) : (Nat × String) × Option KeyExchangeRecord :=
  if ¬ (present req.sessionId ∧ present req.ephemeralPublic ∧
        present req.nonce ∧ presentInt req.timestamp ∧ present req.signature) then
    ((400, "MISSING_FIELDS"), session)
  else if ¬ validateTimestamp now (req.timestamp.getD 0) then
    ((400, "TIMESTAMP_EXPIRED"), session)
  else
    match session with
    | none => ((404, "SESSION_NOT_FOUND"), none)
    | some s =>
      if s.responderId ≠ responderId then
        ((403, "UNAUTHORIZED"), some s)
      else if s.status ≠ .initiated then
        ((400, "INVALID_STATUS"), some s)
      else if s.expiresAt < now then
        ((400, "SESSION_EXPIRED"), some s)
      else
        match findUser responderId with
        | none => ((500, "RESPONSE_FAILED"), some s)
        | some responder =>
          match responder.signingPublicKey with
          | none => ((400, "NO_SIGNING_KEY"), some s)
          | some signingKey =>
            let signatureData := serverRespondSignatureData (req.sessionId.getD "")
              (req.ephemeralPublic.getD "") (req.nonce.getD "")
              (toString (req.timestamp.getD 0))
            if ¬ verify (base64ToPEM signingKey) (req.signature.getD "") signatureData then
              ((401, "INVALID_SIGNATURE"), some s)
            else
              ((200, "RESPONSE_RECORDED"),
               some { s with
                        responderEphemeralPublic := req.ephemeralPublic
                        responderNonce := req.nonce
                        responderSignature := req.signature
                        status := .responded })

/-- The body of a POST /keys/exchange/confirm request. -/
structure ConfirmRequest where
  sessionId : Option String
  confirmation : Option String
  isInitiator : Option Bool
deriving DecidableEq, Repr

/-- The POST /keys/exchange/confirm validator
(src/backend/routes/keys.js lines 228-297).  After the field, existence and
authorization checks it writes the confirmation slot of the caller and
recomputes the status; it consults neither the current status nor whether
the slot is already set. -/
def confirm (userId : String) (session : Option KeyExchangeRecord)
    (req : ConfirmRequest) : (Nat × String) × Option KeyExchangeRecord :=
  if ¬ (present req.sessionId ∧ present req.confirmation ∧
        req.isInitiator.isSome) then
    ((400, "MISSING_FIELDS"), session)
  else
    match session with
    | none => ((404, "SESSION_NOT_FOUND"), none)
    | some s =>
      let isInit := req.isInitiator.getD false
      let expectedUserId := if isInit then s.initiatorId else s.responderId
      if expectedUserId ≠ userId then
        ((403, "UNAUTHORIZED"), some s)
      else if isInit then
        ((200, "CONFIRMATION_RECORDED"),
         some { s with
                  initiatorConfirmation := req.confirmation
                  status := if present s.responderConfirmation
                            then .completed else .confirmed })
      else
        ((200, "CONFIRMATION_RECORDED"),
         some { s with
                  responderConfirmation := req.confirmation
                  status := if present s.initiatorConfirmation
                            then .completed else .confirmed })

/-- A public Diffie-Hellman value: exponentiation of the generator g in the
group of integers modulo p.  This models what crypto.subtle produces for an
ECDH P-256 key pair: the structure the code relies on is exactly that of a
cyclic group. -/
def dhPublic (g p priv : Nat) : Nat := g ^ priv % p

/-- The shared secret crypto.subtle.deriveBits returns: the peer public
value raised to the own private exponent. -/
def dhShared (p priv pub : Nat) : Nat := pub ^ priv % p

/-- The external cryptographic primitives the client key-exchange service
calls.  Theorems quantify over a suite, so they hold for the real
library functions.  hkdf takes the shared secret, the salt bytes, the info
string and the output length in bytes, mirroring deriveSessionKey with
HKDF-SHA-256 into a 256-bit AES-GCM key. -/
structure CryptoSuite where
  hkdf : Nat → List Nat → String → Nat → List Nat
  sha256 : Nat → List Nat
  hmac : Nat → String → String
  b64encode : List Nat → String
  b64decode : String → List Nat

/-- The HKDF info string of the key-exchange service. -/
def infoString : String := "secure-messaging-session-key"

/-- The session record as the client fetches it through
GET /keys/exchange/session (src/backend/routes/keys.js lines 359-374).
The ephemeral public values appear as the already-imported group elements
(importECDHPublicKey is the identity of this model). -/
structure SessionView where
  sessionId : String
  initiatorEphemeralPublic : Nat
  responderEphemeralPublic : Nat
  initiatorNonce : String
  responderNonce : String
  initiatorConfirmation : Option String
  responderConfirmation : Option String
deriving DecidableEq, Repr

/-- The in-memory activeSessions entry of the client key-exchange
service. -/
structure ClientSessionData where
  sessionId : String
  role : String
  partnerId : String
  myPriv : Nat
  myNonce : String
  sharedSecret : Nat
  sessionKey : List Nat
deriving DecidableEq, Repr

/-- An observable side effect of a client key-exchange step: a call of
keyExchangeAPI.confirm, or indexedDBManager.storeSessionKey. -/
inductive ClientEffect where
  | apiConfirm (sessionId : String) (confirmation : String) (isInitiator : Bool)
  | storeSessionKey (userId sessionId : String) (key : List Nat)
deriving DecidableEq, Repr

/-- The cryptographic core of respondToKeyExchange (key-exchange service,
second revision, lines 373-419): the responder derives the shared secret
from the initiator ephemeral public value, concatenates the decoded
initiator nonce with its own decoded nonce in that order, and derives the
session key.  Returns the shared secret and the session key. -/
def respondToKeyExchange (C : CryptoSuite) (p : Nat) (myPriv : Nat)
    (myNonce : String) (view : SessionView) : Nat × List Nat :=
  let sharedSecret := dhShared p myPriv view.initiatorEphemeralPublic
  let n1 := C.b64decode view.initiatorNonce
  let n2 := C.b64decode myNonce
  let combined := n1 ++ n2
  let sessionKey := C.hkdf sharedSecret combined infoString 32
  (sharedSecret, sessionKey)

/-- completeKeyExchange (key-exchange service, second revision, lines
421-463): the initiator derives the shared secret and session key exactly
as the responder does, sends its confirmation HMAC over
sessionId|initiator|base64(sha256(sharedSecret)), and immediately stores
the session key.  The fetched record enters whole as view; the returned
pair is the ordered effect list and the derived session key. -/
def completeKeyExchange (C : CryptoSuite) (p : Nat) (sd : ClientSessionData)
    (view : SessionView) (myUserId : String) : List ClientEffect × List Nat :=
  let sharedSecret := dhShared p sd.myPriv view.responderEphemeralPublic
  let n1 := C.b64decode sd.myNonce
  let n2 := C.b64decode view.responderNonce
  let combined := n1 ++ n2
  let sessionKey := C.hkdf sharedSecret combined infoString 32
  let sharedSecretHash := C.b64encode (C.sha256 sharedSecret)
  let confirmation := C.hmac sharedSecret
    (sd.sessionId ++ "|initiator|" ++ sharedSecretHash)
  ([.apiConfirm sd.sessionId confirmation true,
    .storeSessionKey myUserId sd.sessionId sessionKey], sessionKey)

/-- verifyKeyConfirmation (key-exchange service, second revision, lines
465-497): the responder recomputes the expected initiator confirmation,
rejects on mismatch, and otherwise sends its own confirmation over
sessionId|responder|base64(sha256(sharedSecret)) and stores the session
key. -/
def verifyKeyConfirmation (C : CryptoSuite) (sd : ClientSessionData)
    (view : SessionView) (myUserId : String) :
    Except String (List ClientEffect) :=
  let sharedSecretHash := C.b64encode (C.sha256 sd.sharedSecret)
  let expected := C.hmac sd.sharedSecret
    (sd.sessionId ++ "|initiator|" ++ sharedSecretHash)
  if view.initiatorConfirmation ≠ some expected then
    .error "MITM Detected"
  else
    let ourConfirmation := C.hmac sd.sharedSecret
      (sd.sessionId ++ "|responder|" ++ sharedSecretHash)
    .ok [.apiConfirm sd.sessionId ourConfirmation false,
         .storeSessionKey myUserId sd.sessionId sd.sessionKey]

/-- The confirmation payload string of the initiator:
sessionId|initiator|base64(sha256(z)). -/
def initiatorConfirmationInput (C : CryptoSuite) (sessionId : String)
    (sharedSecret : Nat) : String :=
  sessionId ++ "|initiator|" ++ C.b64encode (C.sha256 sharedSecret)

/-- The confirmation payload string of the responder:
sessionId|responder|base64(sha256(z)). -/
def responderConfirmationInput (C : CryptoSuite) (sessionId : String)
    (sharedSecret : Nat) : String :=
  sessionId ++ "|responder|" ++ C.b64encode (C.sha256 sharedSecret)

/-- The ledger record of an honest run as both clients fetch it after the
respond step: both ephemeral public values and both nonces relayed
faithfully. -/
def honestView (g p a b : Nat) (sid nA nB : String)
    (icf rcf : Option String) : SessionView :=
  { sessionId := sid
    initiatorEphemeralPublic := dhPublic g p a
    responderEphemeralPublic := dhPublic g p b
    initiatorNonce := nA
    responderNonce := nB
    initiatorConfirmation := icf
    responderConfirmation := rcf }

/-- The initiator activeSessions entry at completion time; initiation
stores only the role, the partner, the ephemeral key pair and the nonce. -/
def initiatorSessionData (sid pA nA : String) (a : Nat) : ClientSessionData :=
  { sessionId := sid
    role := "initiator"
    partnerId := pA
    myPriv := a
    myNonce := nA
    sharedSecret := 0
    sessionKey := [] }

/-- The responder activeSessions entry after respondToKeyExchange. -/
def responderSessionData (sid pB nB : String) (b : Nat)
    (sharedSecret : Nat) (sessionKey : List Nat) : ClientSessionData :=
  { sessionId := sid
    role := "responder"
    partnerId := pB
    myPriv := b
    myNonce := nB
    sharedSecret := sharedSecret
    sessionKey := sessionKey }

/-! ## Concrete fixtures for witnesses and counterexamples -/

/-- A completed demo session between u1 and u2. -/
def demoSession : KeyExchangeRecord :=
  { sessionId := "u1_u2_1000"
    initiatorId := "u1"
    responderId := "u2"
    initiatorEphemeralPublic := "epubA"
    responderEphemeralPublic := some "epubB"
    initiatorNonce := "nA"
    responderNonce := some "nB"
    initiatorSignature := "sigA"
    responderSignature := some "sigB"
    initiatorConfirmation := some "cA"
    responderConfirmation := some "cB"
    initiatorLastSequence := 0
    responderLastSequence := 0
    status := .completed
    expiresAt := 301000
    createdAt := 1000 }

/-- A session still in status initiated whose expiry lies in the past by
the time the responder calls. -/
def expiredInitiatedSession : KeyExchangeRecord :=
  { demoSession with
      status := .initiated
      responderEphemeralPublic := none
      responderNonce := none
      responderSignature := none
      initiatorConfirmation := none
      responderConfirmation := none }

/-- A stored demo message from u1 to u2. -/
def demoMessage : StoredMessage :=
  { id := "m1", fromId := "u1", toId := "u2", sessionId := "u1_u2_1000",
    ciphertext := "ct", iv := "iv", messageType := "text",
    fileMetadata := none, timestamp := 2500 }

/-- A small executable crypto suite standing in for the library primitives
in concrete counterexamples; any suite whatsoever satisfies the
quantified theorems. -/
def demoSuite : CryptoSuite :=
  { hkdf := fun ikm salt _ len => ikm :: salt ++ [len]
    sha256 := fun z => [z % 256]
    hmac := fun k m => toString k ++ "#" ++ m
    b64encode := fun l => toString l.length
    b64decode := fun s => [s.length] }

/-- A fetched session view whose stored responder confirmation is a bogus
value no honest responder would have produced. -/
def demoView : SessionView :=
  { sessionId := "sid"
    initiatorEphemeralPublic := 7
    responderEphemeralPublic := 9
    initiatorNonce := "nA"
    responderNonce := "nB"
    initiatorConfirmation := none
    responderConfirmation := some "bogus" }

/-- The demo view with the responder confirmation an honest responder
would have stored under the demo suite. -/
def demoViewCorrect : SessionView :=
  { demoView with
      responderConfirmation :=
        some (demoSuite.hmac 65 (responderConfirmationInput demoSuite "sid" 65)) }

/-- A ciphertext one character above the 256 KiB bound. -/
def oversizedCiphertext : String :=
  String.mk (List.replicate (MAX_MESSAGE_SIZE + 1) 'A')

/-- A next-in-sequence message request carrying the oversized
ciphertext. -/
def oversizedReq : MessageRequest :=
  { toId := some "u2", sessionId := some "u1_u2_1000",
    ciphertext := some oversizedCiphertext, iv := some "aXZpdg==",
    messageType := some "text", fileMetadata := none,
    sequenceNumber := some 1, nonce := some "n1", timestamp := some 2000 }

/-! ## Theorems -/

/-- Commutativity of the Diffie-Hellman shared secret: raising the peer
public value to the own exponent yields the same group element on both
sides. -/
theorem dhShared_comm (g p a b : Nat) :
    dhShared p a (dhPublic g p b) = dhShared p b (dhPublic g p a) := by
  unfold dhShared dhPublic
  rw [← Nat.pow_mod, ← Nat.pow_mod, ← pow_mul, ← pow_mul, Nat.mul_comm]

set_option linter.unnecessarySeqFocus false

/-- C1: in an honest run of the three-message handshake the responder key
from respondToKeyExchange and the initiator key from completeKeyExchange
are bytewise identical; both equal HKDF of the ECDH shared secret with
salt the initiator nonce bytes followed by the responder nonce bytes and
info secure-messaging-session-key, 32 bytes; the initiator sends the HMAC
over the confirmation input sessionId|initiator|base64(sha256(z)), the
responder recomputes the identical input and accepts, and answers with the
HMAC over sessionId|responder|base64(sha256(z)). -/
theorem honest_handshake_agreement (C : CryptoSuite) (g p a b : Nat)
    (sid nA nB uidA uidB pA pB : String) (icf rcf : Option String) :
    let z := dhShared p b (dhPublic g p a)
    let view := honestView g p a b sid nA nB icf rcf
    let responderRun := respondToKeyExchange C p b nB view
    let initiatorRun := completeKeyExchange C p
      (initiatorSessionData sid pA nA a) view uidA
    let confA := C.hmac z (initiatorConfirmationInput C sid z)
    let confB := C.hmac z (responderConfirmationInput C sid z)
    initiatorRun.2 = responderRun.2
    ∧ responderRun.1 = z
    ∧ responderRun.2 =
        C.hkdf z (C.b64decode nA ++ C.b64decode nB) infoString 32
    ∧ initiatorRun.1 =
        [.apiConfirm sid confA true,
         .storeSessionKey uidA sid
           (C.hkdf z (C.b64decode nA ++ C.b64decode nB) infoString 32)]
    ∧ verifyKeyConfirmation C
        (responderSessionData sid pB nB b responderRun.1 responderRun.2)
        (honestView g p a b sid nA nB (some confA) rcf) uidB =
      .ok [.apiConfirm sid confB false,
           .storeSessionKey uidB sid
             (C.hkdf z (C.b64decode nA ++ C.b64decode nB) infoString 32)] := by
  intro z view responderRun initiatorRun confA confB
  have hz : dhShared p a (dhPublic g p b) = z := dhShared_comm g p a b
  refine ⟨?_, ?_, ?_, ?_, ?_⟩ <;>
    simp only [responderRun, initiatorRun, view, confA, confB, z,
      respondToKeyExchange, completeKeyExchange, verifyKeyConfirmation,
      honestView, initiatorSessionData, responderSessionData,
      initiatorConfirmationInput, responderConfirmationInput, hz] <;>
    simp

/-- How one handler call moves the initiator-direction counter: an
accepted message from the initiator advances it to exactly counter plus
one and carried sequence number counter plus one; every other call leaves
it unchanged. -/
theorem runStep_initSeq (now : Int) (s : KeyExchangeRecord)
    (p : String × MessageRequest) :
    ((runStep now s p).1 = .accepted → s.initiatorId = p.1 →
      (runStep now s p).2.initiatorLastSequence = s.initiatorLastSequence + 1
      ∧ p.2.sequenceNumber = some (s.initiatorLastSequence + 1))
    ∧ (¬ ((runStep now s p).1 = .accepted ∧ s.initiatorId = p.1) →
      (runStep now s p).2.initiatorLastSequence = s.initiatorLastSequence) := by
  unfold runStep sendMessage
  by_cases h4 : s.initiatorId = p.1
  · by_cases h5 : p.2.sequenceNumber = some (s.initiatorLastSequence + 1) <;>
      split_ifs <;> simp_all
  · by_cases h6 : s.responderId = p.1
    · by_cases h7 : p.2.sequenceNumber = some (s.responderLastSequence + 1) <;>
        split_ifs <;> simp_all
    · split_ifs <;> simp_all

/-- The accepted initiator-direction sequence numbers of any trace form a
contiguous run starting right above the stored counter. -/
theorem acceptedInitSeqs_seqRun (now : Int) :
    ∀ (tr : List (String × MessageRequest)) (s : KeyExchangeRecord),
      ∃ k, acceptedInitSeqs now s tr = seqRun s.initiatorLastSequence k := by
  intro tr
  induction tr with
  | nil => exact fun s => ⟨0, rfl⟩
  | cons p rest ih =>
    intro s
    by_cases hacc : (runStep now s p).1 = .accepted ∧ s.initiatorId = p.1
    · obtain ⟨h1, h2⟩ := (runStep_initSeq now s p).1 hacc.1 hacc.2
      obtain ⟨k, hk⟩ := ih (runStep now s p).2
      refine ⟨k + 1, ?_⟩
      simp only [acceptedInitSeqs, if_pos hacc]
      rw [hk, h1, h2]
      simp [seqRun]
    · obtain ⟨k, hk⟩ := ih (runStep now s p).2
      have h1 := (runStep_initSeq now s p).2 hacc
      refine ⟨k, ?_⟩
      simp only [acceptedInitSeqs, if_neg hacc]
      rw [hk, h1]

/-- C2: for a POST /messages request by a party of the session with all
fields present and a fresh timestamp, the message is accepted exactly when
its sequenceNumber is the sender-direction counter plus one, in which case
the counter advances to that value and the message is stored; otherwise
the request is rejected with HTTP 409 and code REPLAY_DETECTED and record
and store are untouched.  Consequently the accepted sequence numbers of
any trace in the initiator direction, starting from the fresh counter 0,
are the contiguous run 1, 2, 3, ... -/
theorem sendMessage_sequence_gate
    (now : Int) (sender newId : String) (req : MessageRequest)
    (s : KeyExchangeRecord) (store : List StoredMessage)
    (tr : List (String × MessageRequest))
    (hf : present req.toId ∧ present req.sessionId ∧
          present req.ciphertext ∧ present req.iv)
    (hs : req.sequenceNumber.isSome ∧ present req.nonce ∧
          presentInt req.timestamp)
    (ht : validateTimestamp now (req.timestamp.getD 0) = true)
    (hparty : s.initiatorId = sender ∨ s.responderId = sender) :
    (((sendMessage now sender req (some s) store newId).1 = .accepted)
        ↔ req.sequenceNumber = some (dirCounter s sender + 1))
    ∧ ((sendMessage now sender req (some s) store newId).1 = .accepted →
        ∃ s2, (sendMessage now sender req (some s) store newId).2.1 = some s2
          ∧ dirCounter s2 sender = dirCounter s sender + 1
          ∧ (sendMessage now sender req (some s) store newId).2.2 =
              store ++ [mkStoredMessage now sender req newId])
    ∧ ((sendMessage now sender req (some s) store newId).1 ≠ .accepted →
        sendMessage now sender req (some s) store newId =
          (.rejected 409 "REPLAY_DETECTED", some s, store))
    ∧ (s.initiatorLastSequence = 0 →
        ∃ k, acceptedInitSeqs now s tr = seqRun 0 k) := by
  have htrace : s.initiatorLastSequence = 0 →
      ∃ k, acceptedInitSeqs now s tr = seqRun 0 k := by
    intro h0
    obtain ⟨k, hk⟩ := acceptedInitSeqs_seqRun now tr s
    exact ⟨k, by rw [hk, h0]⟩
  by_cases hinit : s.initiatorId = sender
  · by_cases hseq : req.sequenceNumber = some (s.initiatorLastSequence + 1) <;>
      refine ⟨?_, ?_, ?_, htrace⟩ <;>
      simp_all [sendMessage, dirCounter]
  · rcases hparty with h | hresp
    · exact absurd h hinit
    · by_cases hseq : req.sequenceNumber = some (s.responderLastSequence + 1) <;>
        refine ⟨?_, ?_, ?_, htrace⟩ <;>
        simp_all [sendMessage, dirCounter]

/-- C2 witness: a concrete fresh session and a first message with sequence
number 1 is accepted. -/
theorem sendMessage_sequence_gate_witness :
    (let s : KeyExchangeRecord :=
      { sessionId := "u1_u2_1000", initiatorId := "u1", responderId := "u2",
        initiatorEphemeralPublic := "epubA", responderEphemeralPublic := some "epubB",
        initiatorNonce := "nA", responderNonce := some "nB",
        initiatorSignature := "sigA", responderSignature := some "sigB",
        initiatorConfirmation := none, responderConfirmation := none,
        initiatorLastSequence := 0, responderLastSequence := 0,
        status := .completed, expiresAt := 301000, createdAt := 1000 }
     let req : MessageRequest :=
      { toId := some "u2", sessionId := some "u1_u2_1000",
        ciphertext := some "ct", iv := some "iv", messageType := some "text",
        fileMetadata := none, sequenceNumber := some 1, nonce := some "n1",
        timestamp := some 2000 }
     ((sendMessage 2500 "u1" req (some s) [] "m1").1 = .accepted
        ↔ req.sequenceNumber = some (dirCounter s "u1" + 1))
     ∧ ((sendMessage 2500 "u1" req (some s) [] "m1").1 = .accepted →
         ∃ s2, (sendMessage 2500 "u1" req (some s) [] "m1").2.1 = some s2
           ∧ dirCounter s2 "u1" = dirCounter s "u1" + 1
           ∧ (sendMessage 2500 "u1" req (some s) [] "m1").2.2 =
               [] ++ [mkStoredMessage 2500 "u1" req "m1"])
     ∧ ((sendMessage 2500 "u1" req (some s) [] "m1").1 ≠ .accepted →
         sendMessage 2500 "u1" req (some s) [] "m1" =
           (.rejected 409 "REPLAY_DETECTED", some s, []))
     ∧ (s.initiatorLastSequence = 0 →
         ∃ k, acceptedInitSeqs 2500 s [("u1", req)] = seqRun 0 k)) := by
  intro s req
  exact sendMessage_sequence_gate 2500 "u1" "m1" req s [] [("u1", req)]
    (by decide) (by decide) (by decide) (Or.inl (by decide))

/-- C10: the replay-protected POST /messages handler never inspects the
session status: a request by a party of the session with all fields
present, a fresh timestamp and the next sequence number is accepted and
stored whatever the stored status is, including initiated, responded and
failed. -/
theorem sendMessage_ignores_status
    (now : Int) (sender newId : String) (req : MessageRequest)
    (s : KeyExchangeRecord) (store : List StoredMessage)
    (hf : present req.toId ∧ present req.sessionId ∧
          present req.ciphertext ∧ present req.iv)
    (hs : req.sequenceNumber.isSome ∧ present req.nonce ∧
          presentInt req.timestamp)
    (ht : validateTimestamp now (req.timestamp.getD 0) = true)
    (hparty : s.initiatorId = sender ∨ s.responderId = sender)
    (hseq : req.sequenceNumber = some (dirCounter s sender + 1)) :
    ∀ st : Status,
      (sendMessage now sender req (some { s with status := st }) store newId).1
          = .accepted
      ∧ (sendMessage now sender req (some { s with status := st }) store newId).2.2
          = store ++ [mkStoredMessage now sender req newId] := by
  intro st
  by_cases hinit : s.initiatorId = sender
  · constructor <;> simp_all [sendMessage, dirCounter]
  · rcases hparty with h | hresp
    · exact absurd h hinit
    · constructor <;> simp_all [sendMessage, dirCounter]

/-- C10 witness: a next-in-sequence message on a session still in status
initiated (and likewise responded or failed) is accepted and stored. -/
theorem sendMessage_ignores_status_witness :
    (let s : KeyExchangeRecord :=
      { sessionId := "u1_u2_1000", initiatorId := "u1", responderId := "u2",
        initiatorEphemeralPublic := "epubA", responderEphemeralPublic := none,
        initiatorNonce := "nA", responderNonce := none,
        initiatorSignature := "sigA", responderSignature := none,
        initiatorConfirmation := none, responderConfirmation := none,
        initiatorLastSequence := 0, responderLastSequence := 0,
        status := .completed, expiresAt := 301000, createdAt := 1000 }
     let req : MessageRequest :=
      { toId := some "u2", sessionId := some "u1_u2_1000",
        ciphertext := some "ct", iv := some "iv", messageType := some "text",
        fileMetadata := none, sequenceNumber := some 1, nonce := some "n1",
        timestamp := some 2000 }
     (sendMessage 2500 "u1" req (some { s with status := .initiated }) [] "m1").1
         = .accepted
     ∧ (sendMessage 2500 "u1" req (some { s with status := .initiated }) [] "m1").2.2
         = [] ++ [mkStoredMessage 2500 "u1" req "m1"]) := by
  intro s req
  exact sendMessage_ignores_status 2500 "u1" "m1" req s []
    (by decide) (by decide) (by decide) (Or.inl (by decide)) (by decide) .initiated

/-- C3 counterexample: a Confirm on a record already failed, with both
confirmation slots set, by the authorized initiator is accepted with
CONFIRMATION_RECORDED, the slot is overwritten and the status recomputed
to completed; the claim demands InvalidStatus and an unchanged record. -/
theorem confirm_counterexample :
    confirm "u1" (some { demoSession with status := .failed })
        { sessionId := some "u1_u2_1000", confirmation := some "cA2",
          isInitiator := some true }
      = ((200, "CONFIRMATION_RECORDED"),
         some { demoSession with
                  status := .completed, initiatorConfirmation := some "cA2" })
    ∧ some { demoSession with
               status := .completed, initiatorConfirmation := some "cA2" }
        ≠ some { demoSession with status := .failed } := by
  decide

/-- C3 amended: the confirm validator checks only field presence, session
existence and caller authorization; every authorized Confirm is accepted
whatever the record status and whether the caller slot is already set,
overwriting the slot and recomputing the status from the peer slot. -/
theorem confirm_no_status_gate
    (userId : String) (s : KeyExchangeRecord) (req : ConfirmRequest)
    (hf : present req.sessionId ∧ present req.confirmation ∧
          req.isInitiator.isSome)
    (hauth : (if req.isInitiator.getD false then s.initiatorId
              else s.responderId) = userId) :
    (confirm userId (some s) req).1 = (200, "CONFIRMATION_RECORDED")
    ∧ (req.isInitiator = some true →
        (confirm userId (some s) req).2 = some { s with
            initiatorConfirmation := req.confirmation
            status := if present s.responderConfirmation
                      then .completed else .confirmed })
    ∧ (req.isInitiator = some false →
        (confirm userId (some s) req).2 = some { s with
            responderConfirmation := req.confirmation
            status := if present s.initiatorConfirmation
                      then .completed else .confirmed }) := by
  obtain ⟨h1, h2, h3⟩ := hf
  rcases hb : req.isInitiator with _ | b
  · rw [hb] at h3; simp at h3
  · cases b <;> simp_all [confirm]

/-- C3 amended witness: a repeated initiator Confirm on a completed record
is accepted and overwrites the slot. -/
theorem confirm_no_status_gate_witness :
    (confirm "u1" (some demoSession)
        { sessionId := some "u1_u2_1000", confirmation := some "cA3",
          isInitiator := some true }).1 = (200, "CONFIRMATION_RECORDED")
    ∧ (some true = some true →
        (confirm "u1" (some demoSession)
          { sessionId := some "u1_u2_1000", confirmation := some "cA3",
            isInitiator := some true }).2 = some { demoSession with
            initiatorConfirmation := some "cA3"
            status := if present demoSession.responderConfirmation
                      then .completed else .confirmed })
    ∧ (some true = some false →
        (confirm "u1" (some demoSession)
          { sessionId := some "u1_u2_1000", confirmation := some "cA3",
            isInitiator := some true }).2 = some { demoSession with
            responderConfirmation := some "cA3"
            status := if present demoSession.initiatorConfirmation
                      then .completed else .confirmed }) :=
  confirm_no_status_gate "u1" demoSession
    { sessionId := some "u1_u2_1000", confirmation := some "cA3",
      isInitiator := some true }
    (by decide) (by decide)

/-- C5: an initiate request with all fields present whose timestamp lies
outside the five-minute window is rejected with TIMESTAMP_EXPIRED, no
ledger record is created, and the outcome is the same for every directory
and every signature verifier, so neither is consulted before the
rejection. -/
theorem initiate_freshness_gate
    (now : Int) (initiatorId : String) (req : InitRequest)
    (hf : present req.responderId ∧ present req.ephemeralPublic ∧
          present req.nonce ∧ presentInt req.timestamp ∧
          present req.signature)
    (ht : validateTimestamp now (req.timestamp.getD 0) = false) :
    ∀ (findUser : String → Option User)
      (verify : String → String → String → Bool),
      initiate now initiatorId findUser verify req =
        ((400, "TIMESTAMP_EXPIRED"), none) := by
  intro findUser verify
  simp_all [initiate]

/-- C5 witness: a well-formed initiate request ten minutes in the past is
rejected with TIMESTAMP_EXPIRED and creates nothing, whatever the verifier
says. -/
theorem initiate_freshness_gate_witness :
    initiate 1000000 "u1" (fun _ => none) (fun _ _ _ => true)
      { responderId := some "u2", ephemeralPublic := some "ep",
        nonce := some "n", timestamp := some 400000,
        signature := some "sig" } = ((400, "TIMESTAMP_EXPIRED"), none) :=
  initiate_freshness_gate 1000000 "u1"
    { responderId := some "u2", ephemeralPublic := some "ep",
      nonce := some "n", timestamp := some 400000, signature := some "sig" }
    (by decide) (by decide) (fun _ => none) (fun _ _ _ => true)

/-- C7 counterexample: a respond call on an expired record still in
initiated is rejected with SESSION_EXPIRED but the stored record is left
unchanged, still in initiated; moreover the schema status enum has no
expired value at all, so the transition the claim describes cannot even be
represented. -/
theorem respond_expired_counterexample :
    respond 400000 "u2" (fun _ => none) (fun _ _ _ => true)
        (some expiredInitiatedSession)
        { sessionId := some "u1_u2_1000", ephemeralPublic := some "epB",
          nonce := some "nB", timestamp := some 400000,
          signature := some "sB" }
      = ((400, "SESSION_EXPIRED"), some expiredInitiatedSession)
    ∧ expiredInitiatedSession.status = .initiated
    ∧ "expired" ∉ statusEnum := by
  decide

/-- C7 amended: a respond call with all fields present and a fresh request
timestamp, by the authorized responder, on a record in status initiated
whose expiresAt lies in the past, is rejected with SESSION_EXPIRED and the
record is left entirely unchanged; the schema has no Expired status. -/
theorem respond_expired_leaves_record
    (now : Int) (caller : String) (findUser : String → Option User)
    (verify : String → String → String → Bool)
    (s : KeyExchangeRecord) (req : RespondRequest)
    (hf : present req.sessionId ∧ present req.ephemeralPublic ∧
          present req.nonce ∧ presentInt req.timestamp ∧
          present req.signature)
    (ht : validateTimestamp now (req.timestamp.getD 0) = true)
    (hauth : s.responderId = caller)
    (hstat : s.status = .initiated)
    (hexp : s.expiresAt < now) :
    respond now caller findUser verify (some s) req =
        ((400, "SESSION_EXPIRED"), some s)
    ∧ "expired" ∉ statusEnum := by
  refine ⟨?_, by decide⟩
  simp_all [respond]

/-- C7 amended witness: the concrete expired initiated session is
rejected with SESSION_EXPIRED and left unchanged. -/
theorem respond_expired_leaves_record_witness :
    respond 400000 "u2" (fun _ => none) (fun _ _ _ => false)
        (some expiredInitiatedSession)
        { sessionId := some "u1_u2_1000", ephemeralPublic := some "epB2",
          nonce := some "nB2", timestamp := some 399000,
          signature := some "sB2" }
      = ((400, "SESSION_EXPIRED"), some expiredInitiatedSession)
    ∧ "expired" ∉ statusEnum :=
  respond_expired_leaves_record 400000 "u2" (fun _ => none)
    (fun _ _ _ => false) expiredInitiatedSession
    { sessionId := some "u1_u2_1000", ephemeralPublic := some "epB2",
      nonce := some "nB2", timestamp := some 399000, signature := some "sB2" }
    (by decide) (by decide) (by decide) (by decide) (by decide)

/-- C6 counterexample: the initiator signing payload the validator
reconstructs is not the sorted-keys canonical JSON of its fields; the key
responderId is serialized before ephemeralPublic although it sorts after
it. -/
theorem signatureData_counterexample :
    serverInitSignatureData "u2" "PUB" "NON" "123"
      ≠ canonicalJsonSorted (initSignatureFields "u2" "PUB" "NON" "123") := by
  decide

/-- C6 amended: every string fed into an RSA-PSS signature, as built by
the client and as reconstructed by the validator, is the JSON encoding of
its fields with no insignificant whitespace, in the fixed object-literal
order responderId or sessionId, ephemeralPublic, nonce, timestamp, type;
the client and validator strings are bytewise identical, but the keys are
serialized in insertion order, not sorted lexicographically. -/
theorem signatureData_fixed_order
    (responderId sessionId ephemeralPublic nonce timestamp : String) :
    clientInitSignatureData responderId ephemeralPublic nonce timestamp
      = serverInitSignatureData responderId ephemeralPublic nonce timestamp
    ∧ clientRespondSignatureData sessionId ephemeralPublic nonce timestamp
      = serverRespondSignatureData sessionId ephemeralPublic nonce timestamp
    ∧ serverInitSignatureData responderId ephemeralPublic nonce timestamp
      = jsonObject (initSignatureFields responderId ephemeralPublic nonce timestamp)
    ∧ serverRespondSignatureData sessionId ephemeralPublic nonce timestamp
      = jsonObject (respondSignatureFields sessionId ephemeralPublic nonce timestamp)
    ∧ (initSignatureFields responderId ephemeralPublic nonce timestamp).map Prod.fst
      = ["responderId", "ephemeralPublic", "nonce", "timestamp", "type"]
    ∧ (respondSignatureFields sessionId ephemeralPublic nonce timestamp).map Prod.fst
      = ["sessionId", "ephemeralPublic", "nonce", "timestamp", "type"] :=
  ⟨rfl, rfl, rfl, rfl, rfl, rfl⟩

/-- The length of the oversized ciphertext fixture. -/
theorem oversizedCiphertext_length :
    oversizedCiphertext.length = MAX_MESSAGE_SIZE + 1 := by
  simp [oversizedCiphertext, String.length]

/-- The oversized ciphertext fixture is a truthy field. -/
theorem oversizedCiphertext_ne_empty : oversizedCiphertext ≠ "" := by
  intro h
  have := congrArg String.length h
  rw [oversizedCiphertext_length] at this
  simp [String.length] at this

/-- C8: the replay-protected POST /messages handler declares the 256 KiB
bound MAX_MESSAGE_SIZE but never checks it: a next-in-sequence request
whose ciphertext plus IV exceeds the bound is accepted and stored instead
of being rejected with MESSAGE_TOO_LARGE. -/
theorem sendMessage_accepts_oversized :
    oversizedCiphertext.length + ("aXZpdg==" : String).length > MAX_MESSAGE_SIZE
    ∧ (sendMessage 2500 "u1" oversizedReq (some demoSession) [] "m1").1
        = .accepted
    ∧ (sendMessage 2500 "u1" oversizedReq (some demoSession) [] "m1").2.2
        = [mkStoredMessage 2500 "u1" oversizedReq "m1"] := by
  refine ⟨?_, ?_, ?_⟩
  · rw [oversizedCiphertext_length]; omega
  · simp [sendMessage, oversizedReq, demoSession, present, presentInt,
      validateTimestamp, oversizedCiphertext_ne_empty]
  · simp [sendMessage, oversizedReq, demoSession, present, presentInt,
      validateTimestamp, oversizedCiphertext_ne_empty]

/-- C9 counterexample: DELETE on a stored message by its sender removes
the record from the store, so the messages API does expose a removing
operation. -/
theorem deleteMessage_counterexample :
    deleteMessage "u1" "m1" [demoMessage] = ((200, "MESSAGE_DELETED"), [])
    ∧ demoMessage ∈ [demoMessage] := by
  decide

/-- C9 amended: stored message records are never modified: the send
handler only appends, and the only removing operation, DELETE /:messageId,
removes nothing but messages with the requested id, and removes nothing at
all for a caller who sent none of the stored messages. -/
theorem messages_append_only_except_sender_delete
    (now : Int) (sender newId uid mid : String) (req : MessageRequest)
    (session : Option KeyExchangeRecord) (store : List StoredMessage) :
    (∃ extra, (sendMessage now sender req session store newId).2.2
        = store ++ extra)
    ∧ (deleteMessage uid mid store).2.Sublist store
    ∧ (∀ m ∈ store, m.id ≠ mid → m ∈ (deleteMessage uid mid store).2)
    ∧ ((∀ m ∈ store, m.fromId ≠ uid) →
        deleteMessage uid mid store = ((404, "MESSAGE_NOT_FOUND"), store)) := by
  refine ⟨?_, ?_, ?_, ?_⟩
  · cases session with
    | none =>
      simp only [sendMessage]
      split_ifs <;> exact ⟨[], (List.append_nil store).symm⟩
    | some s =>
      simp only [sendMessage]
      split_ifs <;>
        first
          | exact ⟨[mkStoredMessage now sender req newId], rfl⟩
          | exact ⟨[], (List.append_nil store).symm⟩
  · unfold deleteMessage
    cases hfind : store.find? (fun m => m.id == mid && m.fromId == uid) with
    | none => exact List.Sublist.refl store
    | some m0 => exact List.filter_sublist store
  · intro m hm hid
    unfold deleteMessage
    cases hfind : store.find? (fun m => m.id == mid && m.fromId == uid) with
    | none => exact hm
    | some m0 =>
      have hpred := List.find?_some hfind
      have hm0id : m0.id = mid := by
        have h := (Bool.and_eq_true _ _).mp hpred
        exact beq_iff_eq.mp h.1
      refine List.mem_filter.mpr ⟨hm, ?_⟩
      rw [hm0id]
      exact bne_iff_ne.mpr hid
  · intro hnone
    unfold deleteMessage
    have : store.find? (fun m => m.id == mid && m.fromId == uid) = none := by
      rw [List.find?_eq_none]
      intro m hm
      simp only [Bool.and_eq_true, beq_iff_eq, not_and]
      exact fun _ => hnone m hm
    rw [this]

/-- C9 amended witness: on a one-message store, a send by u1 appends, the
delete by a stranger u3 removes nothing, and the surviving record is
untouched. -/
theorem messages_append_only_except_sender_delete_witness :
    (∃ extra, (sendMessage 2500 "u1" oversizedReq (some demoSession)
        [demoMessage] "m2").2.2 = [demoMessage] ++ extra)
    ∧ (deleteMessage "u3" "m1" [demoMessage]).2.Sublist [demoMessage]
    ∧ (∀ m ∈ [demoMessage], m.id ≠ "m1" →
        m ∈ (deleteMessage "u3" "m1" [demoMessage]).2)
    ∧ ((∀ m ∈ [demoMessage], m.fromId ≠ "u3") →
        deleteMessage "u3" "m1" [demoMessage]
          = ((404, "MESSAGE_NOT_FOUND"), [demoMessage])) :=
  messages_append_only_except_sender_delete 2500 "u1" "m2" "u3" "m1"
    oversizedReq (some demoSession) [demoMessage]

/-- C4 counterexample: completeKeyExchange on a fetched record whose
stored responder confirmation is a bogus value still sends the initiator
confirmation and immediately stores the session key; it performs no
comparison against the stored responder confirmation, whose correct value
would have been a different string. -/
theorem completeKeyExchange_counterexample :
    (completeKeyExchange demoSuite 101 (initiatorSessionData "sid" "u2" "nA" 5)
        demoView "u1").1
      = [.apiConfirm "sid"
           (demoSuite.hmac 65 (initiatorConfirmationInput demoSuite "sid" 65))
           true,
         .storeSessionKey "u1" "sid"
           (completeKeyExchange demoSuite 101
             (initiatorSessionData "sid" "u2" "nA" 5) demoView "u1").2]
    ∧ dhShared 101 5 demoView.responderEphemeralPublic = 65
    ∧ demoView.responderConfirmation = some "bogus"
    ∧ demoSuite.hmac 65 (responderConfirmationInput demoSuite "sid" 65)
        ≠ "bogus"
    ∧ completeKeyExchange demoSuite 101 (initiatorSessionData "sid" "u2" "nA" 5)
        demoViewCorrect "u1"
      = completeKeyExchange demoSuite 101
          (initiatorSessionData "sid" "u2" "nA" 5) demoView "u1" := by
  decide

/-- C4 amended: after sending its own confirmation the initiator
immediately derives and stores the session key: completeKeyExchange is
bytewise independent of the stored responder confirmation, its effect list
is exactly the confirmation send followed by the key store, and it never
compares anything against the responder confirmation slot. -/
theorem completeKeyExchange_stores_without_verifying
    (C : CryptoSuite) (p : Nat) (sd : ClientSessionData) (view : SessionView)
    (uid : String) (rc : Option String) :
    completeKeyExchange C p sd { view with responderConfirmation := rc } uid
      = completeKeyExchange C p sd view uid
    ∧ (completeKeyExchange C p sd view uid).1
      = [.apiConfirm sd.sessionId
           (C.hmac (dhShared p sd.myPriv view.responderEphemeralPublic)
             (initiatorConfirmationInput C sd.sessionId
               (dhShared p sd.myPriv view.responderEphemeralPublic)))
           true,
         .storeSessionKey uid sd.sessionId
           (completeKeyExchange C p sd view uid).2] := by
  constructor
  · rfl
  · simp [completeKeyExchange, initiatorConfirmationInput]

end SecureMessaging
